/-
Verification of the Titan Finance paper-trading arena.

Shallow embedding of the Python sources in `src/services`:
  * `services/risk/risk_engine.py` and `services/risk/main.py`   (RiskEngine)
  * `services/execution/core/portfolio.py`                        (core ledger)
  * `services/execution/core/manager.py`                          (leaderboard rows)
  * `services/execution/virtual_portfolio.py`                     (legacy ledger)
  * `services/execution/simulation/slippage.py`                   (SlippageModel)
  * `services/execution/main.py`                                  (simulate_fill, publish_portfolios)
  * `services/signal/strategies/sma_crossover.py`                 (SMACrossover)

Python floats are modelled as exact rationals (ℚ); `random.gauss` draws are
passed in as explicit parameters; dictionaries become structures or
association lists with first-match lookup (Python dicts never hold duplicate
keys, and our update helpers never create them).
-/

import Mathlib

namespace Titan

/-! ## Python-arithmetic helpers -/

/-- Python `int(x)` on a float: truncation toward zero. -/
def pyInt (q : ℚ) : ℤ :=
  if 0 ≤ q then ⌊q⌋ else -⌊-q⌋

/-- Python `round(x, 2)`: rounding to a whole number of cents.
Python uses round-half-even; this model rounds half up, which agrees with
Python at every non-midpoint value (all values appearing in the theorems
below are non-midpoints). -/
def round2 (x : ℚ) : ℚ :=
  (⌊100 * x + 1/2⌋ : ℚ) / 100

/-- Python `round(x, 4)` (same half-up caveat as `round2`). -/
def round4 (x : ℚ) : ℚ :=
  (⌊10000 * x + 1/2⌋ : ℚ) / 10000

/-- Python `s.upper()` (character-wise uppercasing). -/
def pyUpper (s : String) : String := ⟨s.data.map Char.toUpper⟩

/-- Python `s.lower()` (character-wise lowercasing). -/
def pyLower (s : String) : String := ⟨s.data.map Char.toLower⟩

/-- Python string truthiness: `None` and `""` are falsy. -/
def strTruthy : Option String → Option String
  | some s => if s = "" then none else some s
  | none => none

/-- Python `a.get(k) or b or ""` chains for strings. -/
def pyOrStr (a b : Option String) : String :=
  ((strTruthy a).or (strTruthy b)).getD ""

/-- Python numeric truthiness: `None` and `0` are falsy. -/
def numTruthy : Option ℚ → Option ℚ
  | some q => if q = 0 then none else some q
  | none => none

/-- Python `float(signal.get("price") or current_price or 0.0)`. -/
def pyPriceOr (price : Option ℚ) (fallback : ℚ) : ℚ :=
  ((numTruthy price).or (numTruthy (some fallback))).getD 0

/-! ## RiskEngine (`services/risk/risk_engine.py`) -/

/-- State of `RiskEngine` (configuration thresholds plus mutable fields). -/
structure RiskEngine where
  max_daily_loss_pct : ℚ := 3/100
  max_consecutive_losses : ℤ := 5
  risk_per_trade_pct : ℚ := 1/100
  rollback_min_sharpe : ℚ := 1/2
  rollback_min_accuracy : ℚ := 1/2
  starting_equity : ℚ := 0
  current_equity : ℚ := 0
  daily_pnl : ℚ := 0
  consecutive_losses : ℤ := 0
  recent_predictions : List Bool := []
  recent_returns : List ℚ := []
  window_size : ℕ := 20
  is_kill_switch_active : Bool := false
  is_manual_approval_mode : Bool := false
  deriving Repr, DecidableEq

namespace RiskEngine

/-- `RiskEngine.update_account_state`. -/
def update_account_state (e : RiskEngine) (equity daily_pnl : ℚ) : RiskEngine :=
  let e := { e with current_equity := equity, daily_pnl := daily_pnl }
  if e.starting_equity = 0 then
    { e with starting_equity := equity - daily_pnl }
  else e

/-- `RiskEngine.check_kill_switch` — returns the boolean result and the
possibly-updated state (the Python method mutates `is_kill_switch_active`). -/
def check_kill_switch (e : RiskEngine) : Bool × RiskEngine :=
  if e.starting_equity ≤ 0 then (false, e)
  else
    let drawdown_pct := e.daily_pnl / e.starting_equity
    if drawdown_pct ≤ -e.max_daily_loss_pct then
      (true, { e with is_kill_switch_active := true })
    else if e.consecutive_losses ≥ e.max_consecutive_losses then
      (true, { e with is_kill_switch_active := true })
    else (false, e)

/-- `RiskEngine.record_trade_result`. -/
def record_trade_result (e : RiskEngine) (pnl : ℚ) : RiskEngine :=
  if pnl < 0 then { e with consecutive_losses := e.consecutive_losses + 1 }
  else { e with consecutive_losses := 0 }

/-- `RiskEngine.record_prediction` — appends to both rolling windows and
trims them (from the front) to `window_size`. -/
def record_prediction (e : RiskEngine) (correct : Bool) (trade_return_pct : ℚ) :
    RiskEngine :=
  let preds := e.recent_predictions ++ [correct]
  let rets := e.recent_returns ++ [trade_return_pct]
  { e with
    recent_predictions := if preds.length > e.window_size then preds.tail else preds
    recent_returns := if rets.length > e.window_size then rets.tail else rets }

/-- `RiskEngine.calculate_position_size` — Fixed-Fractional sizing. -/
def calculate_position_size (e : RiskEngine) (entry_price stop_loss : ℚ) : ℤ :=
  if e.is_kill_switch_active then 0
  else
    let risk_amount := e.current_equity * e.risk_per_trade_pct
    let risk_per_share := |entry_price - stop_loss|
    if risk_per_share = 0 then 0
    else ⌊risk_amount / risk_per_share⌋

/-- `RiskEngine.validate_signal` (reads the two control flags only). -/
def validate_signal (e : RiskEngine) : Bool :=
  if e.is_kill_switch_active then false
  else if e.is_manual_approval_mode then false
  else true

/-- `RiskEngine.reset_kill_switch`. -/
def reset_kill_switch (e : RiskEngine) : RiskEngine :=
  { e with
    is_kill_switch_active := false
    consecutive_losses := 0
    starting_equity := e.current_equity
    daily_pnl := 0 }

end RiskEngine

/-! ## RiskGuardian per-signal pipeline (`services/risk/main.py`, trade_signals branch) -/

/-- A `trade_signals` payload as read by the Risk service handler. -/
structure TradeSignalData where
  model_id : Option String := none
  symbol : String
  signal : Option String := none
  confidence : ℚ := 0
  price : Option ℚ := none
  deriving Repr, DecidableEq

/-- An `execution_requests` payload as built by the Risk service handler. -/
structure ExecutionRequest where
  model_id : String
  symbol : String
  qty : ℤ
  side : String
  type : String := "market"
  confidence : ℚ
  deriving Repr, DecidableEq

/-- The `trade_signals` branch of the RiskGuardian message loop: validates,
re-evaluates the kill switch, gates on price, sizes the position, and either
emits an `ExecutionRequest` or drops the signal.  The returned list holds the
commands published on `risk_commands`. -/
def handleTradeSignal (e : RiskEngine) (d : TradeSignalData) :
    RiskEngine × Option ExecutionRequest × List String :=
  if ¬ e.validate_signal then
    (e, none, if e.is_kill_switch_active then ["LIQUIDATE_ALL"] else [])
  else
    let tripped := e.check_kill_switch.1
    let e1 := e.check_kill_switch.2
    if tripped then (e1, none, ["LIQUIDATE_ALL"])
    else
        let price := pyPriceOr d.price 0
        if price ≤ 0 then (e1, none, [])
        else
          let stop_loss := price * (if d.signal = some "BUY" then 98/100 else 102/100)
          let units := e1.calculate_position_size price stop_loss
          if units ≤ 0 then (e1, none, [])
          else
            (e1, some
              { model_id := d.model_id.getD "unknown"
                symbol := d.symbol
                qty := units
                side := if d.signal = some "BUY" then "buy" else "sell"
                confidence := d.confidence }, [])

/-! ## Association-list dictionaries

Python `dict`s keyed by symbol strings.  Lookup returns the first match;
`setKey` replaces the first match or appends; `eraseKey` removes the first
match.  Since entries are only ever added through `setKey`, keys stay
distinct, so first-match semantics coincide with `dict` semantics. -/

/-- First-match lookup in an association list. -/
def lookupKey {α : Type} (l : List (String × α)) (k : String) : Option α :=
  match l with
  | [] => none
  | (k', v) :: rest => if k' = k then some v else lookupKey rest k

/-- Replace the first binding of `k`, or append one. -/
def setKey {α : Type} (l : List (String × α)) (k : String) (v : α) :
    List (String × α) :=
  match l with
  | [] => [(k, v)]
  | (k', v') :: rest =>
    if k' = k then (k', v) :: rest else (k', v') :: setKey rest k v

/-- Remove the first binding of `k` (Python `del d[k]`). -/
def eraseKey {α : Type} (l : List (String × α)) (k : String) :
    List (String × α) :=
  match l with
  | [] => []
  | (k', v') :: rest =>
    if k' = k then rest else (k', v') :: eraseKey rest k

/-! ## Core ledger (`services/execution/core/portfolio.py`) -/

/-- A position entry `{"qty": ..., "avg_price": ...}` in the core ledger. -/
structure CorePosition where
  qty : ℤ := 0
  avg_price : ℚ := 0
  deriving Repr, DecidableEq

/-- A record appended to `VirtualPortfolio.history` by `update_from_fill`.
The Python dict carries no `realized_pnl` key, so later `t.get('realized_pnl', 0.0)`
reads yield 0. -/
structure CoreHistoryRecord where
  symbol : String
  side : String
  qty : ℤ
  price : ℚ
  remaining_cash : ℚ
  deriving Repr, DecidableEq

/-- `core.portfolio.VirtualPortfolio` (the ledger used by the execution
service).  The equity curve is kept as raw equity snapshots. -/
structure CorePortfolio where
  id : String
  cash : ℚ
  initial_cash : ℚ
  positions : List (String × CorePosition) := []
  equity_curve : List ℚ := []
  history : List CoreHistoryRecord := []
  deriving Repr, DecidableEq

/-- `VirtualPortfolio.__init__`. -/
def CorePortfolio.init (id : String) (starting_cash : ℚ) : CorePortfolio :=
  { id := id, cash := starting_cash, initial_cash := starting_cash }

/-- A fill event as consumed by `update_from_fill`. -/
structure FillEvent where
  symbol : String
  qty : ℤ
  price : ℚ
  side : String
  deriving Repr, DecidableEq

/-- `VirtualPortfolio.get_market_value` (falls back to `avg_price`). -/
def CorePortfolio.get_market_value (p : CorePortfolio)
    (current_prices : List (String × ℚ)) : ℚ :=
  p.positions.foldl
    (fun acc sp =>
      acc + sp.2.qty * ((lookupKey current_prices sp.1).getD sp.2.avg_price)) 0

/-- `VirtualPortfolio.calculate_total_equity`. -/
def CorePortfolio.calculate_total_equity (p : CorePortfolio)
    (current_prices : List (String × ℚ)) : ℚ :=
  p.cash + p.get_market_value current_prices

/-- `VirtualPortfolio.update_from_fill`. -/
def CorePortfolio.update_from_fill (p : CorePortfolio) (fill : FillEvent) :
    CorePortfolio :=
  let side := pyLower fill.side
  let signed_qty : ℤ := if side = "buy" then fill.qty else -fill.qty
  let cost : ℚ := signed_qty * fill.price
  let cash := p.cash - cost
  -- `if symbol not in self.positions: self.positions[symbol] = {qty: 0, avg_price: 0}`
  let current_pos := (lookupKey p.positions fill.symbol).getD {}
  let new_qty := current_pos.qty + signed_qty
  let positions :=
    if new_qty = 0 then eraseKey p.positions fill.symbol
    else
      let pos' :=
        if side = "buy" then
          { current_pos with
            avg_price := (current_pos.qty * current_pos.avg_price + cost) / new_qty
            qty := new_qty }
        else { current_pos with qty := new_qty }
      setKey p.positions fill.symbol pos'
  { p with
    cash := cash
    positions := positions
    history := p.history ++
      [{ symbol := fill.symbol, side := side, qty := signed_qty.natAbs,
         price := fill.price, remaining_cash := cash }] }

/-! ## Legacy per-model ledger (`services/execution/virtual_portfolio.py`) -/

/-- `virtual_portfolio.Position` dataclass. -/
structure VPosition where
  qty : ℚ := 0
  avg_cost : ℚ := 0
  deriving Repr, DecidableEq

/-- `virtual_portfolio.TradeFill` dataclass. -/
structure VTradeFill where
  symbol : String
  side : String
  qty : ℚ
  price : ℚ
  realized_pnl : ℚ := 0
  deriving Repr, DecidableEq

/-- `virtual_portfolio.VirtualPortfolio`. -/
structure VPortfolio where
  model_id : String
  model_name : String
  starting_cash : ℚ
  cash : ℚ
  positions : List (String × VPosition) := []
  trades : ℕ := 0
  closed_trades : ℕ := 0
  wins : ℕ := 0
  realized_pnl : ℚ := 0
  deriving Repr, DecidableEq

/-- `VirtualPortfolio.__init__`. -/
def VPortfolio.init (model_id model_name : String) (starting_cash : ℚ) :
    VPortfolio :=
  { model_id := model_id, model_name := model_name,
    starting_cash := starting_cash, cash := starting_cash }

/-- `VirtualPortfolio.buy` — sizes by budget, caps by cash, rejects
non-positive price/budget/qty and unaffordable cost. -/
def VPortfolio.buy (p : VPortfolio) (symbol : String) (price budget : ℚ) :
    VPortfolio × Option VTradeFill :=
  if price ≤ 0 ∨ budget ≤ 0 then (p, none)
  else
    let budget := min budget p.cash
    let qty : ℤ := pyInt (budget / price)
    if qty ≤ 0 then (p, none)
    else
      let cost : ℚ := qty * price
      if cost > p.cash then (p, none)
      else
        let position := (lookupKey p.positions symbol).getD {}
        let new_qty := position.qty + qty
        let position' :=
          if new_qty > 0 then
            { qty := new_qty
              avg_cost := (position.avg_cost * position.qty + cost) / new_qty }
          else { position with qty := new_qty }
        ({ p with
            positions := setKey p.positions symbol position'
            cash := p.cash - cost
            trades := p.trades + 1 },
         some { symbol := symbol, side := "BUY", qty := (qty : ℚ), price := price })

/-- `VirtualPortfolio.sell` — clamps to the held quantity and, on a full
close, zeroes the position *in place* (it is not removed from the mapping). -/
def VPortfolio.sell (p : VPortfolio) (symbol : String) (price : ℚ)
    (qty? : Option ℚ) : VPortfolio × Option VTradeFill :=
  if price ≤ 0 then (p, none)
  else
    match lookupKey p.positions symbol with
    | none => (p, none)
    | some position =>
      if position.qty ≤ 0 then (p, none)
      else
        let qty :=
          match qty? with
          | none => position.qty
          | some q => if q > position.qty then position.qty else q
        if qty ≤ 0 then (p, none)
        else
          let proceeds := qty * price
          let realized_pnl := (price - position.avg_cost) * qty
          let position' :=
            if position.qty - qty ≤ 0 then ({} : VPosition)
            else { position with qty := position.qty - qty }
          ({ p with
              positions := setKey p.positions symbol position'
              cash := p.cash + proceeds
              realized_pnl := p.realized_pnl + realized_pnl
              trades := p.trades + 1
              closed_trades := p.closed_trades + 1
              wins := if realized_pnl > 0 then p.wins + 1 else p.wins },
           some { symbol := symbol, side := "SELL", qty := qty, price := price,
                  realized_pnl := realized_pnl })

/-- One ledger operation on a legacy portfolio. -/
inductive VOp where
  | buy (symbol : String) (price budget : ℚ)
  | sell (symbol : String) (price : ℚ) (qty? : Option ℚ)
  deriving Repr, DecidableEq

/-- Apply one operation (the emitted fill is dropped). -/
def VPortfolio.applyOp (p : VPortfolio) : VOp → VPortfolio
  | .buy symbol price budget => (p.buy symbol price budget).1
  | .sell symbol price qty? => (p.sell symbol price qty?).1

/-- Apply a sequence of buy/sell operations. -/
def VPortfolio.applyOps (p : VPortfolio) (ops : List VOp) : VPortfolio :=
  ops.foldl VPortfolio.applyOp p

/-- `Σ qty·avg_cost` over the position mapping. -/
def posSum (l : List (String × VPosition)) : ℚ :=
  (l.map (fun sp => sp.2.qty * sp.2.avg_cost)).sum

/-! ## Slippage model (`services/execution/simulation/slippage.py`)

`random.gauss(0, 0.0001)` is passed in as the explicit `noise` parameter. -/

/-- `SlippageModel.calculate_price` with `base_bps` as configured (default 5). -/
def SlippageModel.calculate_price (base_bps : ℤ) (decision_price : ℚ)
    (side : String) (qty : ℚ) (noise : ℚ) : ℚ :=
  if decision_price ≤ 0 then decision_price
  else
    let impact := (qty / 10000) * (5/100000)
    let slippage_pct := noise + impact + ((base_bps : ℚ) / 10000)
    if side = "BUY" then round2 (decision_price * (1 + |slippage_pct|))
    else round2 (decision_price * (1 - |slippage_pct|))

/-- The slippage percentage actually applied for a given draw/qty/bps. -/
def SlippageModel.slippagePct (base_bps : ℤ) (qty : ℚ) (noise : ℚ) : ℚ :=
  noise + (qty / 10000) * (5/100000) + ((base_bps : ℚ) / 10000)

/-! ## Order validator (`services/execution/risk/validator.py`) -/

/-- `OrderValidator.validate` with the default limits
`MAX_ORDER_VALUE = 50000` and `MAX_POS_SIZE = 25000`. -/
def OrderValidator.validate (portfolio : CorePortfolio) (symbol : String)
    (signal_price : ℚ) (qty : ℤ) (side : String) : Bool :=
  if qty ≤ 0 ∨ signal_price ≤ 0 then false
  else
    let estimated_cost := qty * signal_price
    if side = "BUY" ∧ portfolio.cash < estimated_cost then false
    else if estimated_cost > 50000 then false
    else if side = "BUY" then
      let existing_qty := ((lookupKey portfolio.positions symbol).getD {}).qty
      let existing_val := existing_qty * signal_price
      let new_val := existing_val + estimated_cost
      if new_val > 25000 then false else true
    else true

/-! ## Paper-mode simulated fill (`services/execution/main.py`, simulate_fill) -/

/-- A payload reaching `simulate_fill` (either an `execution_requests`
message or — through the legacy fallback — a raw `trade_signals` message). -/
structure ExecPayload where
  model_id : Option String := none
  side : Option String := none
  signal : Option String := none
  symbol : String
  price : Option ℚ := none
  qty : Option ℚ := none
  confidence : ℚ := 0
  deriving Repr, DecidableEq

/-- The fill event built by `simulate_fill` (uuid/timestamp fields omitted —
they are fresh random identifiers with no bearing on any property here). -/
structure Fill where
  model_id : String
  symbol : String
  side : String
  qty : ℤ
  price : ℚ
  status : String := "FILLED"
  mode : String := "paper"
  slippage : ℚ
  deriving Repr, DecidableEq

/-- `simulate_fill(signal, current_price, manager)`.  The portfolio manager is
the association list of existing portfolios; a missing portfolio is created
with $100,000 starting cash.  `noise` is the gaussian slippage draw. -/
def simulate_fill (signal : ExecPayload) (current_price : ℚ)
    (manager : List (String × CorePortfolio)) (noise : ℚ) : Option Fill :=
  let model_id := signal.model_id.getD "default_model"
  -- side = (signal.get("side") or signal.get("signal") or "").upper()
  let side := pyUpper (pyOrStr signal.side signal.signal)
  let decision_price := pyPriceOr signal.price current_price
  if decision_price ≤ 0 then none
  else
    let portfolio := (lookupKey manager model_id).getD
      (CorePortfolio.init model_id 100000)
    let risk_qty := signal.qty
    let trade_amount : ℚ := 10000
    let qty : ℤ :=
      if side = "BUY" then
        if portfolio.cash < 10 then 0  -- handled by the `return None` below
        else match numTruthy risk_qty with
          | some q => pyInt q
          | none =>
            let actual_amount := min portfolio.cash trade_amount
            pyInt (actual_amount / decision_price)
      else if side = "SELL" then
        match lookupKey portfolio.positions signal.symbol with
        | none => 0
        | some current_pos =>
          if current_pos.qty ≤ 0 then 0
          else match numTruthy risk_qty with
            | some q => pyInt q
            | none => current_pos.qty
      else 0
    -- the BUY branch with cash < 10 returns None before qty is computed;
    -- both that early return and `qty <= 0` end in None
    if side = "BUY" ∧ portfolio.cash < 10 then none
    else if side == "SELL" &&
        (match lookupKey portfolio.positions signal.symbol with
         | none => true
         | some current_pos => decide (current_pos.qty ≤ 0)) then none
    else if qty ≤ 0 then none
    else if ¬ OrderValidator.validate portfolio signal.symbol decision_price qty side
    then none
    else
      let executed_price := SlippageModel.calculate_price 5 decision_price side (qty : ℚ) noise
      some { model_id := model_id
             symbol := signal.symbol
             side := side
             qty := qty
             price := executed_price
             slippage := round4 (executed_price - decision_price) }

/-! ## Leaderboard (`core/manager.py` + `main.py` publish_portfolios) -/

/-- One row of `PortfolioManager.get_all_portfolios` — the keys of the dict
built there: `model_id, model_name, cash, equity, pnl, pnl_pct, realized_pnl,
trades, wins, win_rate, open_positions`. -/
structure LeaderRow where
  model_id : String
  model_name : String
  cash : ℚ
  equity : ℚ
  pnl : ℚ
  pnl_pct : ℚ
  realized_pnl : ℚ
  trades : ℕ
  wins : ℕ
  win_rate : ℚ
  open_positions : ℕ
  deriving Repr, DecidableEq

/-- A value stored in a leaderboard row. -/
inductive RowVal where
  | s (v : String)
  | q (v : ℚ)
  | n (v : ℕ)
  deriving Repr, DecidableEq

/-- Dictionary access on a row: exactly the keys the dict in
`get_all_portfolios` carries; any other key is a `KeyError`. -/
def LeaderRow.get (r : LeaderRow) : String → Option RowVal
  | "model_id" => some (.s r.model_id)
  | "model_name" => some (.s r.model_name)
  | "cash" => some (.q r.cash)
  | "equity" => some (.q r.equity)
  | "pnl" => some (.q r.pnl)
  | "pnl_pct" => some (.q r.pnl_pct)
  | "realized_pnl" => some (.q r.realized_pnl)
  | "trades" => some (.n r.trades)
  | "wins" => some (.n r.wins)
  | "win_rate" => some (.q r.win_rate)
  | "open_positions" => some (.n r.open_positions)
  | _ => none

/-- Python `str.title()` applied after `replace("_", " ")` (capitalises each
space-separated word). -/
def titleCase (s : String) : String :=
  String.intercalate " " ((s.splitOn " ").map (fun w => (pyLower w).capitalize))

/-- The `name_map` pretty-name fallback in `get_all_portfolios`. -/
def prettyName (p_id : String) : String :=
  (lookupKey
    [("tft_model_01", "TFT Transformer"), ("lstm_model_01", "LSTM DeepNet"),
     ("lightgbm_01", "LightGBM Quant"), ("sma_cross", "SMA Crossover")]
    p_id).getD (titleCase (p_id.replace "_" " "))

/-- `PortfolioManager.get_all_portfolios`: one summary row per portfolio.
`t.get('realized_pnl', 0.0)` always defaults to 0 because
`update_from_fill` history records carry no such key. -/
def get_all_portfolios (manager : List (String × CorePortfolio))
    (current_prices : List (String × ℚ)) : List LeaderRow :=
  manager.map fun pp =>
    let p_id := pp.1
    let p := pp.2
    let realized_pnl := (p.history.map (fun _ => (0 : ℚ))).sum
    let wins : ℕ := (p.history.filter
      (fun t => t.side == "sell" && decide ((0 : ℚ) > 0))).length
    let total_closed_trades : ℕ :=
      (p.history.filter (fun t => t.side == "sell")).length
    let win_rate : ℚ :=
      if total_closed_trades > 0 then (wins : ℚ) / (total_closed_trades : ℚ) else 0
    let equity := p.calculate_total_equity current_prices
    let pnl := equity - p.initial_cash
    let pnl_pct := if p.initial_cash > 0 then pnl / p.initial_cash * 100 else 0
    { model_id := p_id
      model_name := prettyName p_id
      cash := p.cash
      equity := equity
      pnl := pnl
      pnl_pct := pnl_pct
      realized_pnl := realized_pnl
      trades := total_closed_trades
      wins := wins
      win_rate := win_rate
      open_positions := p.positions.length }

/-- The leaderboard payload published on `paper_portfolio_updates`. -/
structure LeaderboardPayload where
  best_model : Option RowVal
  models : List LeaderRow
  mode : String := "paper"
  deriving Repr, DecidableEq

/-- `portfolios.sort(key=lambda x: x['equity'], reverse=True)`. -/
def sortByEquityDesc (rows : List LeaderRow) : List LeaderRow :=
  rows.mergeSort (fun a b => decide (b.equity ≤ a.equity))

/-- `publish_portfolios` from `services/execution/main.py`: sorts the summary
rows by equity (descending) and builds the payload whose `best_model` field is
`portfolios[0]["id"]` for a non-empty list.  A missing dictionary key raises,
modelled as `Except.error`. -/
def publish_portfolios (manager : List (String × CorePortfolio))
    (current_prices : List (String × ℚ)) : Except String LeaderboardPayload :=
  let portfolios := sortByEquityDesc (get_all_portfolios manager current_prices)
  match portfolios with
  | [] => .ok { best_model := none, models := [] }
  | first :: _ =>
    match first.get "id" with
    | some v => .ok { best_model := some v, models := portfolios }
    | none => .error "KeyError: id"

/-! ## SMA crossover strategy (`services/signal/strategies/sma_crossover.py`) -/

/-- `SMACrossover` state: the bounded tick-price deque
(`maxlen = slow_period + 1`) and the inferred position. -/
structure SMAState where
  symbol : String
  model_id : String
  fast_period : ℕ := 20
  slow_period : ℕ := 50
  prices : List ℚ := []
  current_position : Option String := none
  deriving Repr, DecidableEq

/-- A signal dict emitted by `SMACrossover.on_tick`. -/
structure EmittedSignal where
  model_id : String
  model_name : String := "SMA_Crossover_v1"
  symbol : String
  signal : String
  confidence : ℚ
  price : ℚ
  deriving Repr, DecidableEq

/-- `deque(maxlen=m).append`: append right, drop from the left past `m`. -/
def pushMaxlen (maxlen : ℕ) (l : List ℚ) (x : ℚ) : List ℚ :=
  let l2 := l ++ [x]
  if maxlen < l2.length then l2.drop (l2.length - maxlen) else l2

/-- Python `list[-n:]` (note `list[-0:]` is the whole list). -/
def pyLastSlice (n : ℕ) (l : List ℚ) : List ℚ :=
  if n = 0 then l else l.drop (l.length - n)

/-- `statistics.mean`. -/
def listMean (l : List ℚ) : ℚ := l.sum / l.length

/-- The fast SMA over the buffered prices. -/
def SMAState.fastSMA (st : SMAState) (prices : List ℚ) : ℚ :=
  listMean (pyLastSlice st.fast_period prices)

/-- The slow SMA over the buffered prices. -/
def SMAState.slowSMA (st : SMAState) (prices : List ℚ) : ℚ :=
  listMean (pyLastSlice st.slow_period prices)

/-- `SMACrossover.on_tick`. -/
def SMAState.on_tick (st : SMAState) (price : ℚ) :
    SMAState × Option EmittedSignal :=
  if price ≤ 0 then (st, none)
  else
    let prices := pushMaxlen (st.slow_period + 1) st.prices price
    let st1 := { st with prices := prices }
    if prices.length < st.slow_period then (st1, none)
    else
      let fast_sma := st.fastSMA prices
      let slow_sma := st.slowSMA prices
      if fast_sma > slow_sma ∧ st.current_position ≠ some "LONG" then
        ({ st1 with current_position := some "LONG" },
         some { model_id := st.model_id, symbol := st.symbol, signal := "BUY",
                confidence := 1, price := price })
      else if fast_sma < slow_sma ∧ st.current_position ≠ some "SHORT" then
        ({ st1 with current_position := some "SHORT" },
         some { model_id := st.model_id, symbol := st.symbol, signal := "SELL",
                confidence := 1, price := price })
      else (st1, none)

/-- Feed a tick stream, collecting every emitted signal in order. -/
def SMAState.runTicks (st : SMAState) : List ℚ → SMAState × List EmittedSignal
  | [] => (st, [])
  | p :: ps =>
    let (st1, out) := st.on_tick p
    let (st2, sigs) := st1.runTicks ps
    (st2, match out with | none => sigs | some s => s :: sigs)

/-- The RiskEngine operations named by the kill-switch monotonicity claim
(every public operation except the explicit resets). -/
inductive RiskOp where
  | check_kill_switch
  | validate_signal
  | record_trade_result (pnl : ℚ)
  | record_prediction (correct : Bool) (trade_return_pct : ℚ)
  | update_account_state (equity daily_pnl : ℚ)
  deriving Repr, DecidableEq

/-- Apply one operation to the engine (`validate_signal` reads state only). -/
def RiskEngine.applyOp (e : RiskEngine) : RiskOp → RiskEngine
  | .check_kill_switch => e.check_kill_switch.2
  | .validate_signal => e
  | .record_trade_result pnl => e.record_trade_result pnl
  | .record_prediction c r => e.record_prediction c r
  | .update_account_state eq d => e.update_account_state eq d

/-- Apply a sequence of operations. -/
def RiskEngine.applyOps (e : RiskEngine) (ops : List RiskOp) : RiskEngine :=
  ops.foldl RiskEngine.applyOp e

/-- *Modelled from the spec*: the confidence formula the specification
assigns to the SMA strategy, `min(|spread|/0.02, 1.0)` with
`spread = (fast − slow)/slow` (the relative difference between the SMAs).
The source strategy itself hard-codes `confidence = 1.0`; this definition
exists only to compare the spec's formula against the code. -/
def specSmaConfidence (fast_sma slow_sma : ℚ) : ℚ :=
  min (|(fast_sma - slow_sma) / slow_sma| / (2/100)) 1

/-! ## Concrete inputs referenced by the theorems -/

/-- The raw `trade_signals`-shaped payload of the bypass scenario:
`{symbol: "SPY", signal: "BUY", price: 150, confidence: 0.8}` — no `side`,
no `qty`. -/
def rawTradeSignalPayload : ExecPayload :=
  { symbol := "SPY", signal := some "BUY", price := some 150, confidence := 8/10 }

/-- The happy-BUY engine state: equity $100,000, `risk_per_trade` 0.001. -/
def happyBuyEngine : RiskEngine :=
  { starting_equity := 100000, current_equity := 100000,
    risk_per_trade_pct := 1/1000 }

/-- The happy-BUY signal `{BUY, SPY, conf=0.82}` at price 150. -/
def happyBuySignal : TradeSignalData :=
  { symbol := "SPY", signal := some "BUY", price := some 150,
    confidence := 82/100 }

/-- The request the Risk service emits for the happy-BUY scenario. -/
def happyBuyRequest : ExecutionRequest :=
  { model_id := "unknown", symbol := "SPY", qty := 33, side := "buy",
    confidence := 82/100 }

/-! # Theorems -/

/-! ### Shared evaluation lemmas -/

theorem pyUpper_eval_buy : pyUpper "BUY" = "BUY" := by decide

theorem pyLower_eval_buy : pyLower "BUY" = "buy" := by decide

theorem pyLower_eval_sell : pyLower "SELL" = "sell" := by decide

/-- `LeaderRow` dictionaries never carry an `"id"` key. -/
theorem LeaderRow.get_id (r : LeaderRow) : r.get "id" = none := rfl

/-! ### C1 -/

/-- C1: the claim states that a payload lacking `side` and `qty` (a raw
TradeSignal such as `{symbol: "SPY", signal: "BUY", price: 150,
confidence: 0.8}`) fed to `simulate_fill` produces no fill.  The code
falsifies this: its legacy fallback reads the `signal` key and sizes the
order internally from a $10,000 budget, producing a BUY fill of 66 shares at
price 150 for every slippage draw. -/
theorem c1_raw_signal_produces_fill (noise : ℚ) :
    (simulate_fill rawTradeSignalPayload 0 [] noise).map
      (fun f => (f.side, f.qty)) = some ("BUY", 66) := by
  norm_num +decide [simulate_fill, rawTradeSignalPayload, pyOrStr, strTruthy,
    numTruthy, pyPriceOr, CorePortfolio.init, lookupKey, pyInt,
    OrderValidator.validate, pyUpper_eval_buy]

/-! ### C9 -/

/-- C9: the claim states that for a non-empty collection of portfolios the
leaderboard is published (sorted by equity descending) without error.  The
code falsifies this: `publish_portfolios` reads `portfolios[0]["id"]`, but
`get_all_portfolios` rows carry the key `model_id` and no `id` key, so every
non-empty publication raises `KeyError: 'id'` — shown here at a manager
holding one fresh portfolio. -/
theorem c9_publish_raises_keyerror :
    publish_portfolios [("m1", CorePortfolio.init "m1" 100000)] [] =
      Except.error "KeyError: id" := by
  norm_num +decide [publish_portfolios, get_all_portfolios, sortByEquityDesc,
    CorePortfolio.init, CorePortfolio.calculate_total_equity,
    CorePortfolio.get_market_value, LeaderRow.get_id, prettyName, lookupKey,
    List.mergeSort]

/-! ### C7 -/

/-- Every single engine operation preserves an active kill switch. -/
theorem RiskEngine.applyOp_preserves_kill (e : RiskEngine) (op : RiskOp)
    (h : e.is_kill_switch_active = true) :
    (e.applyOp op).is_kill_switch_active = true := by
  cases op with
  | check_kill_switch =>
    simp only [RiskEngine.applyOp, RiskEngine.check_kill_switch]
    split_ifs <;> simp [h]
  | validate_signal => simpa using h
  | record_trade_result pnl =>
    simp only [RiskEngine.applyOp, RiskEngine.record_trade_result]
    split_ifs <;> simpa using h
  | record_prediction c r =>
    simpa [RiskEngine.applyOp, RiskEngine.record_prediction] using h
  | update_account_state eq d =>
    simp only [RiskEngine.applyOp, RiskEngine.update_account_state]
    split_ifs <;> simpa using h

/-- C7: once `is_kill_switch_active` is set, no sequence of
`check_kill_switch` / `validate_signal` / `record_trade_result` /
`record_prediction` / `update_account_state` operations ever clears it, and
the explicit `reset_kill_switch` operation is the one that returns the engine
to the inactive state. -/
theorem c7_kill_switch_monotone (e : RiskEngine) (ops : List RiskOp)
    (h : e.is_kill_switch_active = true) :
    (e.applyOps ops).is_kill_switch_active = true ∧
      (e.applyOps ops).reset_kill_switch.is_kill_switch_active = false := by
  refine ⟨?_, rfl⟩
  induction ops generalizing e with
  | nil => simpa [RiskEngine.applyOps] using h
  | cons op rest ih =>
    have h1 := RiskEngine.applyOp_preserves_kill e op h
    simpa [RiskEngine.applyOps] using ih (e.applyOp op) h1

/-- C7 witness: a tripped engine stays tripped across a concrete mix of the
five operations, and the explicit reset clears it. -/
theorem c7_kill_switch_monotone_witness :
    (({ is_kill_switch_active := true } : RiskEngine).applyOps
        [.record_trade_result (-1), .check_kill_switch,
         .update_account_state 100 (-50), .validate_signal,
         .record_prediction true (1/100)]).is_kill_switch_active = true ∧
      (({ is_kill_switch_active := true } : RiskEngine).applyOps
        [.record_trade_result (-1), .check_kill_switch,
         .update_account_state 100 (-50), .validate_signal,
         .record_prediction true (1/100)]).reset_kill_switch.is_kill_switch_active
        = false :=
  c7_kill_switch_monotone { is_kill_switch_active := true } _ rfl

/-! ### C10 -/

/-- A `check_kill_switch` call that reports `false` leaves the engine
unchanged. -/
theorem RiskEngine.check_kill_switch_false (e e1 : RiskEngine)
    (h : e.check_kill_switch = (false, e1)) : e1 = e := by
  simp only [RiskEngine.check_kill_switch] at h
  split_ifs at h <;> simp_all

/-- C10 counterexample: the claim asserts that in *every* state with
`starting_equity ≤ 0` the position size is 0 and no request is emitted.
A first `update_account_state(10000, 10000)` call anchors
`starting_equity := 10000 − 10000 = 0 ≤ 0` while leaving
`current_equity = 10000`, after which `calculate_position_size(150, 147)`
returns 33 and the signal handler emits a request of 33 shares. -/
theorem c10_zero_anchor_still_sizes :
    (({} : RiskEngine).update_account_state 10000 10000).starting_equity ≤ 0 ∧
    (({} : RiskEngine).update_account_state 10000 10000).calculate_position_size
        150 147 = 33 ∧
    ((handleTradeSignal (({} : RiskEngine).update_account_state 10000 10000)
        { symbol := "SPY", signal := some "BUY", price := some 150 }).2.1.map
      (fun r => r.qty)) = some 33 := by
  norm_num +decide [RiskEngine.update_account_state,
    RiskEngine.calculate_position_size, handleTradeSignal,
    RiskEngine.validate_signal, RiskEngine.check_kill_switch, pyPriceOr,
    numTruthy]

/-- C10 (amended): for every engine state with `starting_equity ≤ 0`,
`check_kill_switch` returns `False` and leaves the state (in particular
`is_kill_switch_active`) unchanged, regardless of `consecutive_losses` or
`daily_pnl`; and when additionally `current_equity = 0` — as is the case
before the first `update_account_state` call — `calculate_position_size`
returns 0 for every price, so the signal handler emits no
`ExecutionRequest`. -/
theorem c10_unanchored_engine_inert (e : RiskEngine)
    (h : e.starting_equity ≤ 0) :
    e.check_kill_switch = (false, e) ∧
      (e.current_equity = 0 →
        (∀ price stop_loss, e.calculate_position_size price stop_loss = 0) ∧
        ∀ d, (handleTradeSignal e d).2.1 = none) := by
  have hck : e.check_kill_switch = (false, e) := by
    unfold RiskEngine.check_kill_switch
    simp [h]
  refine ⟨hck, fun hce => ?_⟩
  have hsize : ∀ price stop_loss, e.calculate_position_size price stop_loss = 0 := by
    intro price stop_loss
    simp only [RiskEngine.calculate_position_size]
    split_ifs <;> simp [hce]
  refine ⟨hsize, fun d => ?_⟩
  simp only [handleTradeSignal, hck, hsize]
  split_ifs <;> simp_all

/-- C10 witness: a concrete engine with `starting_equity = −5`,
`current_equity = 0`, 99 consecutive losses and a large negative daily P&L
neither trips the kill switch nor sizes or emits anything. -/
theorem c10_unanchored_engine_inert_witness :
    ({ starting_equity := -5, current_equity := 0, consecutive_losses := 99,
       daily_pnl := -100000 } : RiskEngine).check_kill_switch =
      (false, { starting_equity := -5, current_equity := 0,
                consecutive_losses := 99, daily_pnl := -100000 }) ∧
    ({ starting_equity := -5, current_equity := 0, consecutive_losses := 99,
       daily_pnl := -100000 } : RiskEngine).calculate_position_size 150 147 = 0 ∧
    (handleTradeSignal
        ({ starting_equity := -5, current_equity := 0, consecutive_losses := 99,
           daily_pnl := -100000 } : RiskEngine)
        { symbol := "SPY", signal := some "BUY", price := some 150 }).2.1 =
      none := by
  have h := c10_unanchored_engine_inert
    { starting_equity := -5, current_equity := 0, consecutive_losses := 99,
      daily_pnl := -100000 } (by norm_num)
  exact ⟨h.1, (h.2 rfl).1 150 147,
    (h.2 rfl).2 { symbol := "SPY", signal := some "BUY", price := some 150 }⟩

/-! ### C5 -/

/-- A signal that passes validation implies both control flags are clear. -/
theorem RiskEngine.validate_signal_true (e : RiskEngine)
    (h : e.validate_signal = true) :
    e.is_kill_switch_active = false ∧ e.is_manual_approval_mode = false := by
  simp only [RiskEngine.validate_signal] at h
  split_ifs at h
  simp_all

/-- C5: every `ExecutionRequest` the Risk service emits for a BUY signal has
lowercase side `"buy"` and quantity
`⌊(current_equity · risk_per_trade_pct) / |price − 0.98·price|⌋`; and when
that floor is ≤ 0 (which also covers `risk_per_share = 0`, where the sizing
routine returns 0 directly) no request is emitted. -/
theorem c5_fixed_fractional_sizing (e : RiskEngine) (d : TradeSignalData) :
    (∀ req, (handleTradeSignal e d).2.1 = some req →
      d.signal = some "BUY" →
      req.side = "buy" ∧
        req.qty = ⌊(e.current_equity * e.risk_per_trade_pct) /
          |pyPriceOr d.price 0 - 98/100 * pyPriceOr d.price 0|⌋) ∧
    (d.signal = some "BUY" →
      ⌊(e.current_equity * e.risk_per_trade_pct) /
          |pyPriceOr d.price 0 - 98/100 * pyPriceOr d.price 0|⌋ ≤ 0 →
      (handleTradeSignal e d).2.1 = none) := by
  by_cases hv : e.validate_signal
  · obtain ⟨hkill, -⟩ := RiskEngine.validate_signal_true e hv
    rcases hck : e.check_kill_switch with ⟨b, e2⟩
    cases b with
    | true =>
      constructor
      · intro req hrun hbuy
        simp [handleTradeSignal, hv, hck] at hrun
      · intro hbuy hfloor
        simp [handleTradeSignal, hv, hck]
    | false =>
      have he2 : e2 = e := RiskEngine.check_kill_switch_false e e2 hck
      rw [he2] at hck
      by_cases hp : pyPriceOr d.price 0 ≤ 0
      · constructor
        · intro req hrun hbuy
          simp [handleTradeSignal, hv, hck, hp] at hrun
        · intro hbuy hfloor
          simp [handleTradeSignal, hv, hck, hp]
      · have hpz : pyPriceOr d.price 0 ≠ 0 := fun h0 => hp (le_of_eq h0)
        have hcomm : pyPriceOr d.price 0 - pyPriceOr d.price 0 * (98/100) =
            pyPriceOr d.price 0 - 98/100 * pyPriceOr d.price 0 := by ring
        have hrps : |pyPriceOr d.price 0 - 98/100 * pyPriceOr d.price 0| ≠ 0 := by
          rw [abs_ne_zero]
          intro h0
          apply hpz
          linarith
        have hunits : e.calculate_position_size (pyPriceOr d.price 0)
            (pyPriceOr d.price 0 * (98/100)) =
            ⌊(e.current_equity * e.risk_per_trade_pct) /
              |pyPriceOr d.price 0 - 98/100 * pyPriceOr d.price 0|⌋ := by
          simp only [RiskEngine.calculate_position_size, hkill, Bool.false_eq_true,
            if_false, hcomm, if_neg hrps]
        constructor
        · intro req hrun hbuy
          simp only [handleTradeSignal, hv, hck, hbuy, Bool.not_true,
            Bool.false_eq_true, if_false, if_true, ite_true, ite_false,
            not_true_eq_false, hp, hunits] at hrun
          by_cases hu : (⌊(e.current_equity * e.risk_per_trade_pct) /
              |pyPriceOr d.price 0 - 98/100 * pyPriceOr d.price 0|⌋ : ℤ) ≤ 0
          · simp [hu] at hrun
          · simp only [hu, if_false, ite_false, Option.some.injEq] at hrun
            subst hrun
            exact ⟨rfl, rfl⟩
        · intro hbuy hfloor
          simp only [handleTradeSignal, hv, hck, hbuy, Bool.not_true,
            Bool.false_eq_true, if_false, if_true, ite_true, ite_false,
            not_true_eq_false, hp, hunits]
          simp [hfloor]
  · constructor
    · intro req hrun hbuy
      simp [handleTradeSignal, hv] at hrun
    · intro hbuy hfloor
      simp [handleTradeSignal, hv]

/-- C5 witness: with equity $100,000, `risk_per_trade` 0.001 and price 150,
the emitted request has side `"buy"` and qty `⌊100 / 3⌋ = 33`. -/
theorem c5_fixed_fractional_sizing_witness :
    (handleTradeSignal happyBuyEngine happyBuySignal).2.1 = some happyBuyRequest ∧
      happyBuyRequest.side = "buy" ∧ happyBuyRequest.qty = 33 := by
  have heval : (handleTradeSignal happyBuyEngine happyBuySignal).2.1 =
      some happyBuyRequest := by
    norm_num +decide [handleTradeSignal, happyBuyEngine, happyBuySignal,
      happyBuyRequest, RiskEngine.validate_signal, RiskEngine.check_kill_switch,
      RiskEngine.calculate_position_size, pyPriceOr, numTruthy]
  have h := (c5_fixed_fractional_sizing happyBuyEngine happyBuySignal).1
    happyBuyRequest heval rfl
  refine ⟨heval, h.1, ?_⟩
  rw [h.2]
  norm_num [happyBuyEngine, happyBuySignal, pyPriceOr, numTruthy]

/-! ### C6 -/

theorem sell_ne_buy : ("SELL" : String) ≠ "BUY" := by decide

/-- Rounding to cents is monotone. -/
theorem round2_mono {x y : ℚ} (h : x ≤ y) : round2 x ≤ round2 y := by
  unfold round2
  gcongr

/-- Rounding to cents fixes whole-cent values. -/
theorem round2_cent (k : ℤ) : round2 ((k : ℚ)/100) = (k : ℚ)/100 := by
  unfold round2
  have h100 : (100 : ℚ) * ((k : ℚ)/100) + 1/2 = (k : ℚ) + 1/2 := by ring
  rw [h100]
  have : (⌊(k : ℚ) + 1/2⌋ : ℤ) = k + ⌊(1/2 : ℚ)⌋ := by
    rw [add_comm, Int.floor_add_int, add_comm]
  rw [this]
  norm_num

/-- C6 counterexample: the claim asserts `executed_price ≥ decision_price` on
BUY for every non-zero slippage.  At the sub-cent decision price 10.0044 with
a draw making `slippage_pct = 1/100000 ≠ 0`, the code's final
round-to-cents returns 10.00 < 10.0044. -/
theorem c6_subcent_rounding_breaks_direction :
    SlippageModel.slippagePct 5 0 (-49/100000) ≠ 0 ∧
    SlippageModel.calculate_price 5 (100044/10000) "BUY" 0 (-49/100000) = 10 ∧
    SlippageModel.calculate_price 5 (100044/10000) "BUY" 0 (-49/100000) <
      100044/10000 := by
  have habs : |(1 : ℚ)/100000| = 1/100000 := abs_of_pos (by norm_num)
  norm_num [SlippageModel.slippagePct, SlippageModel.calculate_price, round2, habs]

/-- C6 (amended): the executed price is
`round₂(decision_price · (1 ± |slippage_pct|))` — the model rounds to whole
cents.  For every decision price that is itself a whole number of cents the
direction invariant holds for every draw: BUY executes at ≥ the decision
price and SELL at ≤ it; sub-cent decision prices can land on the wrong side
of the decision price by less than half a cent (see the counterexample).  A
`decision_price ≤ 0` is returned unchanged. -/
theorem c6_slippage_direction (base_bps : ℤ) (p qty noise : ℚ) :
    (0 < p → (∃ k : ℤ, p = (k : ℚ)/100) →
      p ≤ SlippageModel.calculate_price base_bps p "BUY" qty noise ∧
        SlippageModel.calculate_price base_bps p "SELL" qty noise ≤ p) ∧
    (p ≤ 0 → ∀ side, SlippageModel.calculate_price base_bps p side qty noise = p) := by
  constructor
  · rintro hp ⟨k, rfl⟩
    have hnp : ¬ ((k : ℚ)/100 ≤ 0) := not_le.2 hp
    have habs : 0 ≤ |noise + (qty / 10000) * (5/100000) + ((base_bps : ℚ) / 10000)| :=
      abs_nonneg _
    constructor
    · have hle : (k : ℚ)/100 ≤
          (k : ℚ)/100 * (1 + |noise + (qty / 10000) * (5/100000) +
            ((base_bps : ℚ) / 10000)|) := by nlinarith
      calc ((k : ℚ)/100) = round2 ((k : ℚ)/100) := (round2_cent k).symm
        _ ≤ round2 ((k : ℚ)/100 * (1 + |noise + (qty / 10000) * (5/100000) +
              ((base_bps : ℚ) / 10000)|)) := round2_mono hle
        _ = SlippageModel.calculate_price base_bps ((k : ℚ)/100) "BUY" qty noise := by
            simp [SlippageModel.calculate_price, hnp]
    · have hle : (k : ℚ)/100 * (1 - |noise + (qty / 10000) * (5/100000) +
          ((base_bps : ℚ) / 10000)|) ≤ (k : ℚ)/100 := by nlinarith
      calc SlippageModel.calculate_price base_bps ((k : ℚ)/100) "SELL" qty noise
          = round2 ((k : ℚ)/100 * (1 - |noise + (qty / 10000) * (5/100000) +
              ((base_bps : ℚ) / 10000)|)) := by
            simp [SlippageModel.calculate_price, hnp, sell_ne_buy]
        _ ≤ round2 ((k : ℚ)/100) := round2_mono hle
        _ = (k : ℚ)/100 := round2_cent k
  · intro hp0 side
    simp [SlippageModel.calculate_price, hp0]

/-- C6 witness: at the whole-cent price 150 every draw keeps BUY above and
SELL below the decision price, and a negative decision price is returned
unchanged. -/
theorem c6_slippage_direction_witness :
    ((150 : ℚ) ≤ SlippageModel.calculate_price 5 150 "BUY" 10 (3/10000) ∧
      SlippageModel.calculate_price 5 150 "SELL" 10 (3/10000) ≤ 150) ∧
    SlippageModel.calculate_price 5 (-5) "BUY" 10 (3/10000) = -5 :=
  ⟨(c6_slippage_direction 5 150 10 (3/10000)).1 (by norm_num)
      ⟨15000, by norm_num⟩,
   (c6_slippage_direction 5 (-5) 10 (3/10000)).2 (by norm_num) "BUY"⟩

/-! ### C3 -/

theorem sell_ne_buy_lower : ("sell" : String) ≠ "buy" := by decide

/-- C3: on the core ledger, buying N shares at p₁ and then selling the same
N shares at p₂ leaves `cash = starting_cash + N·(p₂ − p₁)` and an empty
positions mapping. -/
theorem c3_buy_sell_round_trip (id sym : String) (C : ℚ) (N : ℤ) (p1 p2 : ℚ)
    (hN : 0 < N) (_hp1 : 0 < p1) (_hp2 : 0 < p2) :
    (((CorePortfolio.init id C).update_from_fill
        { symbol := sym, qty := N, price := p1, side := "BUY" }).update_from_fill
        { symbol := sym, qty := N, price := p2, side := "SELL" }).cash =
      C + N * (p2 - p1) ∧
    (((CorePortfolio.init id C).update_from_fill
        { symbol := sym, qty := N, price := p1, side := "BUY" }).update_from_fill
        { symbol := sym, qty := N, price := p2, side := "SELL" }).positions = [] := by
  have hNz : (N : ℚ) ≠ 0 := Int.cast_ne_zero.2 hN.ne'
  have hNz' : N ≠ 0 := hN.ne'
  have hbuy : (CorePortfolio.init id C).update_from_fill
      { symbol := sym, qty := N, price := p1, side := "BUY" } =
      { id := id, cash := C - N * p1, initial_cash := C,
        positions := [(sym, { qty := N, avg_price := p1 })],
        equity_curve := [],
        history := [{ symbol := sym, side := "buy", qty := N.natAbs, price := p1,
                      remaining_cash := C - N * p1 }] } := by
    simp only [CorePortfolio.init, CorePortfolio.update_from_fill,
      pyLower_eval_buy, lookupKey, setKey, eraseKey]
    norm_num [hNz']
  rw [hbuy]
  simp only [CorePortfolio.update_from_fill, pyLower_eval_sell, lookupKey, setKey,
    eraseKey]
  norm_num [sell_ne_buy_lower]
  ring

/-- C3 witness: buy 33 @ 150 then sell 33 @ 160 from $100,000 leaves
cash $100,330 and no open positions. -/
theorem c3_buy_sell_round_trip_witness :
    (((CorePortfolio.init "m1" 100000).update_from_fill
        { symbol := "SPY", qty := 33, price := 150, side := "BUY" }).update_from_fill
        { symbol := "SPY", qty := 33, price := 160, side := "SELL" }).cash =
      100330 ∧
    (((CorePortfolio.init "m1" 100000).update_from_fill
        { symbol := "SPY", qty := 33, price := 150, side := "BUY" }).update_from_fill
        { symbol := "SPY", qty := 33, price := 160, side := "SELL" }).positions
      = [] := by
  have h := c3_buy_sell_round_trip "m1" "SPY" 100000 33 150 160
    (by norm_num) (by norm_num) (by norm_num)
  refine ⟨?_, h.2⟩
  rw [h.1]
  norm_num

/-! ### C4 -/

/-- Erasing a key only removes entries. -/
theorem mem_eraseKey {α : Type} {l : List (String × α)} {k : String}
    {x : String × α} (h : x ∈ eraseKey l k) : x ∈ l := by
  induction l with
  | nil => simp [eraseKey] at h
  | cons hd tl ih =>
    simp only [eraseKey] at h
    split_ifs at h with hk
    · exact List.mem_cons_of_mem _ h
    · rcases List.mem_cons.1 h with h1 | h2
      · exact h1 ▸ List.mem_cons_self _ _
      · exact List.mem_cons_of_mem _ (ih h2)

/-- Every entry of `setKey l k v` carries `v` or was already in `l`. -/
theorem mem_setKey {α : Type} {l : List (String × α)} {k : String} {v : α}
    {x : String × α} (h : x ∈ setKey l k v) : x.2 = v ∨ x ∈ l := by
  induction l with
  | nil =>
    simp only [setKey, List.mem_singleton] at h
    exact Or.inl (by rw [h])
  | cons hd tl ih =>
    simp only [setKey] at h
    split_ifs at h with hk
    · rcases List.mem_cons.1 h with h1 | h2
      · exact Or.inl (by rw [h1])
      · exact Or.inr (List.mem_cons_of_mem _ h2)
    · rcases List.mem_cons.1 h with h1 | h2
      · exact Or.inr (h1 ▸ List.mem_cons_self _ _)
      · rcases ih h2 with h3 | h4
        · exact Or.inl h3
        · exact Or.inr (List.mem_cons_of_mem _ h4)

/-- C4 counterexample: the claim asserts that after every fill no symbol maps
to a position with `qty == 0`.  On the legacy ledger
(`virtual_portfolio.py`), buying 10 AAPL and then selling the whole position
leaves `positions["AAPL"] = Position(qty=0, avg_cost=0)` — the symbol is
zeroed in place, not removed. -/
theorem c4_legacy_sell_retains_zero_qty :
    lookupKey ((((VPortfolio.init "m1" "M1" 10000).buy "AAPL" 100 1000).1.sell
        "AAPL" 100 none).1).positions "AAPL" =
      some { qty := 0, avg_cost := 0 } := by
  norm_num +decide [VPortfolio.init, VPortfolio.buy, VPortfolio.sell,
    lookupKey, setKey, pyInt]

/-- C4 (amended): on the core ledger (`core/portfolio.py`), a position whose
quantity reaches zero is deleted, so `update_from_fill` preserves the
invariant that no symbol maps to a position with `qty == 0`.  The legacy
ledger (`virtual_portfolio.py`) instead retains a fully-sold symbol with
`qty = 0` and `avg_cost = 0` (see the counterexample). -/
theorem c4_no_zero_qty_core (p : CorePortfolio) (fill : FillEvent)
    (h : ∀ sp ∈ p.positions, sp.2.qty ≠ 0) :
    ∀ sp ∈ (p.update_from_fill fill).positions, sp.2.qty ≠ 0 := by
  intro sp hsp
  simp only [CorePortfolio.update_from_fill] at hsp
  split_ifs at hsp <;>
    first
    | exact h sp (mem_eraseKey hsp)
    | (rcases mem_setKey hsp with h1 | h2
       · rw [h1]
         assumption
       · exact h sp h2)

/-- C4 witness: a BUY fill of 5 shares on a fresh core portfolio (whose empty
position mapping trivially satisfies the invariant) yields the single entry
AAPL ↦ (qty 5, avg 100), whose quantity the preservation theorem shows is
non-zero. -/
theorem c4_no_zero_qty_core_witness :
    ("AAPL", ({ qty := 5, avg_price := 100 } : CorePosition)) ∈
      ((CorePortfolio.init "m1" 100000).update_from_fill
        { symbol := "AAPL", qty := 5, price := 100, side := "BUY" }).positions ∧
    ({ qty := 5, avg_price := 100 } : CorePosition).qty ≠ 0 := by
  have hmem : ("AAPL", ({ qty := 5, avg_price := 100 } : CorePosition)) ∈
      ((CorePortfolio.init "m1" 100000).update_from_fill
        { symbol := "AAPL", qty := 5, price := 100, side := "BUY" }).positions := by
    norm_num +decide [CorePortfolio.init, CorePortfolio.update_from_fill,
      lookupKey, setKey, eraseKey, pyLower_eval_buy]
  exact ⟨hmem, c4_no_zero_qty_core (CorePortfolio.init "m1" 100000)
    { symbol := "AAPL", qty := 5, price := 100, side := "BUY" }
    (by simp [CorePortfolio.init]) _ hmem⟩

/-! ### C2 -/

theorem lookupKey_mem {α : Type} {l : List (String × α)} {k : String} {v : α}
    (h : lookupKey l k = some v) : (k, v) ∈ l := by
  induction l with
  | nil => simp [lookupKey] at h
  | cons hd tl ih =>
    simp only [lookupKey] at h
    split_ifs at h with hk
    · obtain rfl := Option.some.inj h
      obtain ⟨k', v'⟩ := hd
      simp only at hk
      rw [hk]
      exact List.mem_cons_self _ _
    · exact List.mem_cons_of_mem _ (ih h)

theorem posSum_setKey_some {l : List (String × VPosition)} {k : String}
    {v0 : VPosition} (h : lookupKey l k = some v0) (v : VPosition) :
    posSum (setKey l k v) =
      posSum l + v.qty * v.avg_cost - v0.qty * v0.avg_cost := by
  induction l with
  | nil => simp [lookupKey] at h
  | cons hd tl ih =>
    simp only [lookupKey] at h
    simp only [setKey]
    split_ifs at h ⊢ with hk
    · obtain rfl := Option.some.inj h
      simp only [posSum, List.map_cons, List.sum_cons]
      ring
    · simp only [posSum, List.map_cons, List.sum_cons] at ih ⊢
      rw [ih h]
      ring

theorem posSum_setKey_none {l : List (String × VPosition)} {k : String}
    (h : lookupKey l k = none) (v : VPosition) :
    posSum (setKey l k v) = posSum l + v.qty * v.avg_cost := by
  induction l with
  | nil => simp [posSum, setKey]
  | cons hd tl ih =>
    simp only [lookupKey] at h
    simp only [setKey]
    split_ifs at h ⊢ with hk
    · simp only [posSum, List.map_cons, List.sum_cons] at ih ⊢
      rw [ih h]
      ring




theorem posSum_setKey_mk_some {l : List (String × VPosition)} {k : String}
    {v0 : VPosition} (h : lookupKey l k = some v0) (a b : ℚ) :
    posSum (setKey l k { qty := a, avg_cost := b }) =
      posSum l + a * b - v0.qty * v0.avg_cost := by
  rw [posSum_setKey_some h]

theorem posSum_setKey_mk_none {l : List (String × VPosition)} {k : String}
    (h : lookupKey l k = none) (a b : ℚ) :
    posSum (setKey l k { qty := a, avg_cost := b }) = posSum l + a * b := by
  rw [posSum_setKey_none h]

theorem VPortfolio.buy_conserves (p : VPortfolio) (symbol : String) (price budget : ℚ)
    (h1 : ∀ sp ∈ p.positions, 0 ≤ sp.2.qty)
    (h2 : p.cash + posSum p.positions = p.starting_cash + p.realized_pnl) :
    (∀ sp ∈ (p.applyOp (.buy symbol price budget)).positions, 0 ≤ sp.2.qty) ∧
      (p.applyOp (.buy symbol price budget)).cash +
          posSum (p.applyOp (.buy symbol price budget)).positions =
        (p.applyOp (.buy symbol price budget)).starting_cash +
          (p.applyOp (.buy symbol price budget)).realized_pnl := by
  simp only [VPortfolio.applyOp, VPortfolio.buy]
  split_ifs with hg hq hc hnq
  · exact ⟨h1, h2⟩
  · exact ⟨h1, h2⟩
  · exact ⟨h1, h2⟩
  · -- executed buy with positive new quantity
    push_neg at hq
    have hqQ : (0:ℚ) < ((pyInt ((budget ⊓ p.cash) / price)):ℚ) := by
      exact_mod_cast hq
    rcases hl : lookupKey p.positions symbol with _ | v0
    · simp only [Option.getD_none]
      have hcne : ((pyInt ((budget ⊓ p.cash) / price)):ℚ) ≠ 0 := ne_of_gt hqQ
      constructor
      · intro sp hsp
        rcases mem_setKey hsp with hsp1 | hsp2
        · have hq' : (0:ℚ) ≤ 0 + ((pyInt ((budget ⊓ p.cash) / price)):ℚ) := by
            linarith
          rw [hsp1]
          exact hq'
        · exact h1 sp hsp2
      · rw [posSum_setKey_mk_none hl]
        have hXY : ((0:ℚ) + ((pyInt ((budget ⊓ p.cash) / price)):ℚ)) *
            ((0 * 0 + ((pyInt ((budget ⊓ p.cash) / price)):ℚ) * price) /
              (0 + ((pyInt ((budget ⊓ p.cash) / price)):ℚ))) =
            ((pyInt ((budget ⊓ p.cash) / price)):ℚ) * price := by
          rw [zero_add, zero_mul, zero_add, mul_div_cancel_left₀ _ hcne]
        rw [hXY]
        linear_combination h2
    · simp only [Option.getD_some]
      have hv0 : 0 ≤ v0.qty := by simpa using h1 _ (lookupKey_mem hl)
      have hcne : (0:ℚ) < v0.qty + ((pyInt ((budget ⊓ p.cash) / price)):ℚ) := by
        linarith
      constructor
      · intro sp hsp
        rcases mem_setKey hsp with hsp1 | hsp2
        · have hq' : (0:ℚ) ≤ v0.qty + ((pyInt ((budget ⊓ p.cash) / price)):ℚ) :=
            le_of_lt hcne
          rw [hsp1]
          exact hq'
        · exact h1 sp hsp2
      · rw [posSum_setKey_mk_some hl]
        have hXY : (v0.qty + ((pyInt ((budget ⊓ p.cash) / price)):ℚ)) *
            ((v0.avg_cost * v0.qty + ((pyInt ((budget ⊓ p.cash) / price)):ℚ) * price) /
              (v0.qty + ((pyInt ((budget ⊓ p.cash) / price)):ℚ))) =
            v0.avg_cost * v0.qty + ((pyInt ((budget ⊓ p.cash) / price)):ℚ) * price := by
          rw [mul_comm, div_mul_cancel₀ _ (ne_of_gt hcne)]
        rw [hXY]
        linear_combination h2
  · -- impossible: existing qty is nonnegative and the bought qty is positive
    exfalso
    apply hnq
    push_neg at hq
    have hqQ : (0:ℚ) < ((pyInt ((budget ⊓ p.cash) / price)):ℚ) := by
      exact_mod_cast hq
    have hpos0 : 0 ≤ ((lookupKey p.positions symbol).getD
        { qty := 0, avg_cost := 0 }).qty := by
      rcases hl : lookupKey p.positions symbol with _ | v0
      · simp
      · simpa using h1 _ (lookupKey_mem hl)
    linarith

theorem VPortfolio.sell_conserves (p : VPortfolio) (symbol : String) (price : ℚ)
    (qty? : Option ℚ)
    (h1 : ∀ sp ∈ p.positions, 0 ≤ sp.2.qty)
    (h2 : p.cash + posSum p.positions = p.starting_cash + p.realized_pnl) :
    (∀ sp ∈ (p.applyOp (.sell symbol price qty?)).positions, 0 ≤ sp.2.qty) ∧
      (p.applyOp (.sell symbol price qty?)).cash +
          posSum (p.applyOp (.sell symbol price qty?)).positions =
        (p.applyOp (.sell symbol price qty?)).starting_cash +
          (p.applyOp (.sell symbol price qty?)).realized_pnl := by
  simp only [VPortfolio.applyOp, VPortfolio.sell]
  split_ifs with hp0
  · exact ⟨h1, h2⟩
  rcases hl : lookupKey p.positions symbol with _ | position
  · exact ⟨h1, h2⟩
  have hposq : 0 ≤ position.qty := by simpa using h1 _ (lookupKey_mem hl)
  rcases qty? with _ | q
  · -- qty omitted: sell the whole position
    dsimp only
    split_ifs with hq0 hzero hwin
    · exact ⟨h1, h2⟩
    · refine ⟨?_, ?_⟩
      · intro sp hsp
        rcases mem_setKey hsp with hsp1 | hsp2
        · rw [hsp1]
        · exact h1 sp hsp2
      · rw [posSum_setKey_mk_some hl]
        linear_combination h2
    · refine ⟨?_, ?_⟩
      · intro sp hsp
        rcases mem_setKey hsp with hsp1 | hsp2
        · rw [hsp1]
        · exact h1 sp hsp2
      · rw [posSum_setKey_mk_some hl]
        linear_combination h2
    · refine ⟨?_, ?_⟩
      · intro sp hsp
        rcases mem_setKey hsp with hsp1 | hsp2
        · have hq' : (0:ℚ) ≤ position.qty - position.qty := by linarith
          rw [hsp1]
          exact hq'
        · exact h1 sp hsp2
      · rw [posSum_setKey_mk_some hl]
        linear_combination h2
    · refine ⟨?_, ?_⟩
      · intro sp hsp
        rcases mem_setKey hsp with hsp1 | hsp2
        · have hq' : (0:ℚ) ≤ position.qty - position.qty := by linarith
          rw [hsp1]
          exact hq'
        · exact h1 sp hsp2
      · rw [posSum_setKey_mk_some hl]
        linear_combination h2
  · -- explicit qty, clamped to the held quantity
    dsimp only
    by_cases hclamp : q > position.qty
    · rw [if_pos hclamp]
      split_ifs with hq0 hzero hwin
      · exact ⟨h1, h2⟩
      · refine ⟨?_, ?_⟩
        · intro sp hsp
          rcases mem_setKey hsp with hsp1 | hsp2
          · rw [hsp1]
          · exact h1 sp hsp2
        · rw [posSum_setKey_mk_some hl]
          linear_combination h2
      · refine ⟨?_, ?_⟩
        · intro sp hsp
          rcases mem_setKey hsp with hsp1 | hsp2
          · rw [hsp1]
          · exact h1 sp hsp2
        · rw [posSum_setKey_mk_some hl]
          linear_combination h2
      · refine ⟨?_, ?_⟩
        · intro sp hsp
          rcases mem_setKey hsp with hsp1 | hsp2
          · have hq' : (0:ℚ) ≤ position.qty - position.qty := by linarith
            rw [hsp1]
            exact hq'
          · exact h1 sp hsp2
        · rw [posSum_setKey_mk_some hl]
          linear_combination h2
      · refine ⟨?_, ?_⟩
        · intro sp hsp
          rcases mem_setKey hsp with hsp1 | hsp2
          · have hq' : (0:ℚ) ≤ position.qty - position.qty := by linarith
            rw [hsp1]
            exact hq'
          · exact h1 sp hsp2
        · rw [posSum_setKey_mk_some hl]
          linear_combination h2
    · rw [if_neg hclamp]
      push_neg at hclamp
      split_ifs with hq0 hqle hzero hwin
      · exact ⟨h1, h2⟩
      · exact ⟨h1, h2⟩
      · have hqe : q = position.qty := le_antisymm hclamp (by linarith)
        refine ⟨?_, ?_⟩
        · intro sp hsp
          rcases mem_setKey hsp with hsp1 | hsp2
          · rw [hsp1]
          · exact h1 sp hsp2
        · rw [posSum_setKey_mk_some hl]
          rw [hqe]
          linear_combination h2
      · have hqe : q = position.qty := le_antisymm hclamp (by linarith)
        refine ⟨?_, ?_⟩
        · intro sp hsp
          rcases mem_setKey hsp with hsp1 | hsp2
          · rw [hsp1]
          · exact h1 sp hsp2
        · rw [posSum_setKey_mk_some hl]
          rw [hqe]
          linear_combination h2
      · refine ⟨?_, ?_⟩
        · intro sp hsp
          rcases mem_setKey hsp with hsp1 | hsp2
          · have hq' : (0:ℚ) ≤ position.qty - q := by linarith
            rw [hsp1]
            exact hq'
          · exact h1 sp hsp2
        · rw [posSum_setKey_mk_some hl]
          linear_combination h2
      · refine ⟨?_, ?_⟩
        · intro sp hsp
          rcases mem_setKey hsp with hsp1 | hsp2
          · have hq' : (0:ℚ) ≤ position.qty - q := by linarith
            rw [hsp1]
            exact hq'
          · exact h1 sp hsp2
        · rw [posSum_setKey_mk_some hl]
          linear_combination h2

/-- One ledger operation preserves the conservation invariant. -/
theorem VPortfolio.applyOp_conserves (p : VPortfolio) (op : VOp)
    (h1 : ∀ sp ∈ p.positions, 0 ≤ sp.2.qty)
    (h2 : p.cash + posSum p.positions = p.starting_cash + p.realized_pnl) :
    (∀ sp ∈ (p.applyOp op).positions, 0 ≤ sp.2.qty) ∧
      (p.applyOp op).cash + posSum (p.applyOp op).positions =
        (p.applyOp op).starting_cash + (p.applyOp op).realized_pnl := by
  cases op with
  | buy symbol price budget => exact p.buy_conserves symbol price budget h1 h2
  | sell symbol price qty? => exact p.sell_conserves symbol price qty? h1 h2

/-- Conservation is preserved along any operation sequence. -/
theorem VPortfolio.applyOps_conserves (ops : List VOp) (p : VPortfolio)
    (h1 : ∀ sp ∈ p.positions, 0 ≤ sp.2.qty)
    (h2 : p.cash + posSum p.positions = p.starting_cash + p.realized_pnl) :
    (∀ sp ∈ (p.applyOps ops).positions, 0 ≤ sp.2.qty) ∧
      (p.applyOps ops).cash + posSum (p.applyOps ops).positions =
        (p.applyOps ops).starting_cash + (p.applyOps ops).realized_pnl := by
  induction ops generalizing p with
  | nil => exact ⟨h1, h2⟩
  | cons op rest ih =>
    obtain ⟨g1, g2⟩ := p.applyOp_conserves op h1 h2
    simpa [VPortfolio.applyOps] using ih (p.applyOp op) g1 g2

/-- C2 counterexample: the claim's identity
`cash + Σ qty·avg_cost + Σ realised_pnl = starting_cash` fails on the code.
Starting from $100, buying 1 AAPL @ 10 and selling it @ 20 gives
`cash = 110`, `Σ qty·avg_cost = 0` and `realized_pnl = 10`, so the claimed
left-hand side is 120 ≠ 100 — a 20% deviation, far beyond the 1-basis-point
rounding allowance (and no slippage was even involved). -/
theorem c2_claimed_identity_fails :
    ((VPortfolio.init "m1" "M1" 100).applyOps
          [.buy "AAPL" 10 10, .sell "AAPL" 20 none]).cash +
        posSum ((VPortfolio.init "m1" "M1" 100).applyOps
          [.buy "AAPL" 10 10, .sell "AAPL" 20 none]).positions +
        ((VPortfolio.init "m1" "M1" 100).applyOps
          [.buy "AAPL" 10 10, .sell "AAPL" 20 none]).realized_pnl = 120 ∧
      ((VPortfolio.init "m1" "M1" 100).applyOps
          [.buy "AAPL" 10 10, .sell "AAPL" 20 none]).starting_cash = 100 ∧
      ¬ ((120 : ℚ) - 100 ≤ 100 * (1/10000)) := by
  norm_num +decide [VPortfolio.init, VPortfolio.applyOps, VPortfolio.applyOp,
    VPortfolio.buy, VPortfolio.sell, pyInt, lookupKey, setKey, posSum,
    min_def]

/-- C2 (amended): the conserved ledger identity carries `realised_pnl` on the
other side — for every starting cash and every sequence of buy/sell
operations, `cash + Σ qty·avg_cost = starting_cash + Σ realised_pnl`, exactly
(no rounding tolerance is needed: the ledger arithmetic is conservative to
the penny). -/
theorem c2_ledger_conservation (mid mname : String) (C : ℚ) (ops : List VOp) :
    ((VPortfolio.init mid mname C).applyOps ops).cash +
        posSum ((VPortfolio.init mid mname C).applyOps ops).positions =
      ((VPortfolio.init mid mname C).applyOps ops).starting_cash +
        ((VPortfolio.init mid mname C).applyOps ops).realized_pnl := by
  refine (VPortfolio.applyOps_conserves ops (VPortfolio.init mid mname C) ?_ ?_).2
  · intro sp hsp
    simp [VPortfolio.init] at hsp
  · simp [VPortfolio.init, posSum]


/-! ### C8 -/

/-- A tick that emits no signal leaves the inferred position unchanged. -/
theorem SMAState.on_tick_none (st : SMAState) (price : ℚ)
    (h : (st.on_tick price).2 = none) :
    (st.on_tick price).1.current_position = st.current_position := by
  simp only [SMAState.on_tick] at h ⊢
  split_ifs at h ⊢ <;> simp_all

/-- An emitted signal has confidence 1, flips the inferred position to the
matching state, and contradicts the prior inferred position. -/
theorem SMAState.on_tick_some (st : SMAState) (price : ℚ) (s : EmittedSignal)
    (h : (st.on_tick price).2 = some s) :
    s.confidence = 1 ∧
    ((s.signal = "BUY" ∧ (st.on_tick price).1.current_position = some "LONG" ∧
        st.current_position ≠ some "LONG") ∨
     (s.signal = "SELL" ∧ (st.on_tick price).1.current_position = some "SHORT" ∧
        st.current_position ≠ some "SHORT")) := by
  simp only [SMAState.on_tick] at h ⊢
  split_ifs at h ⊢ with h1 h2 h3 h4
  · obtain rfl := Option.some.inj h
    exact ⟨rfl, Or.inl ⟨rfl, rfl, h3.2⟩⟩
  · obtain rfl := Option.some.inj h
    exact ⟨rfl, Or.inr ⟨rfl, rfl, h4.2⟩⟩


/-- Over any tick stream: every emission has confidence 1, no two adjacent
emissions share a signal, and the first emission contradicts the starting
inferred position. -/
theorem SMAState.runTicks_alternation (ps : List ℚ) (st : SMAState) :
    (∀ s ∈ (st.runTicks ps).2, s.confidence = 1) ∧
    List.Chain' (fun a b => a.signal ≠ b.signal) (st.runTicks ps).2 ∧
    (∀ s, (st.runTicks ps).2.head? = some s →
      (s.signal = "BUY" → st.current_position ≠ some "LONG") ∧
      (s.signal = "SELL" → st.current_position ≠ some "SHORT")) := by
  induction ps generalizing st with
  | nil => simp [SMAState.runTicks]
  | cons p ps ih =>
    rcases hto : st.on_tick p with ⟨st1, out⟩
    rcases hr : st1.runTicks ps with ⟨st2, l⟩
    obtain ⟨ihc, ihchain, ihhead⟩ := ih st1
    rw [hr] at ihc ihchain ihhead
    cases out with
    | none =>
      have hpos : st1.current_position = st.current_position := by
        have h0 := SMAState.on_tick_none st p (by rw [hto])
        rw [hto] at h0
        exact h0
      simp only [SMAState.runTicks, hto, hr]
      refine ⟨ihc, ihchain, ?_⟩
      intro s hs
      obtain ⟨hB, hS⟩ := ihhead s hs
      constructor
      · intro hb
        rw [← hpos]
        exact hB hb
      · intro hs'
        rw [← hpos]
        exact hS hs'
    | some s0 =>
      have hsome := SMAState.on_tick_some st p s0 (by rw [hto])
      simp only [hto] at hsome
      obtain ⟨hconf, hcases⟩ := hsome
      simp only [SMAState.runTicks, hto, hr]
      refine ⟨?_, ?_, ?_⟩
      · intro s hs
        rcases List.mem_cons.1 hs with rfl | hs2
        · exact hconf
        · exact ihc s hs2
      · rw [List.chain'_cons']
        refine ⟨?_, ihchain⟩
        intro b hb
        have hhead := ihhead b hb
        rcases hcases with ⟨hsig, hpos1, -⟩ | ⟨hsig, hpos1, -⟩
        · intro heq
          exact (hhead.1 (by rw [← heq, hsig])) hpos1
        · intro heq
          exact (hhead.2 (by rw [← heq, hsig])) hpos1
      · intro s hs
        simp only [List.head?_cons, Option.some.injEq] at hs
        subst hs
        rcases hcases with ⟨hsig, -, hnot⟩ | ⟨hsig, -, hnot⟩
        · refine ⟨fun _ => hnot, fun hsell => ?_⟩
          rw [hsig] at hsell
          exact absurd hsell (by decide)
        · refine ⟨fun hbuy => ?_, fun _ => hnot⟩
          rw [hsig] at hbuy
          exact absurd hbuy (by decide)

/-- C8 counterexample: the claim asserts
`confidence = min(|spread|/0.02, 1.0)`.  With `fast_period = 1`,
`slow_period = 2` and ticks 10, 10.001, the golden cross emits a BUY with
confidence 1.0, while the spec formula evaluates to 50/20001 ≈ 0.0025 ≠ 1. -/
theorem c8_spec_confidence_formula_fails :
    ((({ symbol := "AAPL", model_id := "m", fast_period := 1, slow_period := 2 } :
          SMAState).runTicks [10, 10001/1000]).2.map
        (fun s => (s.signal, s.confidence))) = [("BUY", 1)] ∧
      specSmaConfidence
          (({ symbol := "AAPL", model_id := "m", fast_period := 1,
              slow_period := 2 } : SMAState).fastSMA [10, 10001/1000])
          (({ symbol := "AAPL", model_id := "m", fast_period := 1,
              slow_period := 2 } : SMAState).slowSMA [10, 10001/1000]) =
        50/20001 ∧
      (1 : ℚ) ≠ 50/20001 := by
  have habs : |(1 : ℚ)/20001| = 1/20001 := abs_of_pos (by norm_num)
  norm_num +decide [SMAState.runTicks, SMAState.on_tick, pushMaxlen,
    pyLastSlice, listMean, SMAState.fastSMA, SMAState.slowSMA,
    specSmaConfidence, habs, min_def]

/-- C8 (amended): every signal the SMA crossover emits carries the constant
confidence 1.0 (the `min(|spread|/0.02, 1.0)` formula is not implemented),
and the strategy never emits two consecutive identical signals while in the
same inferred position state — emissions strictly alternate because each one
flips `current_position` and a signal matching the current state is
suppressed. -/
theorem c8_constant_confidence_and_no_duplicate_signals (st : SMAState)
    (ps : List ℚ) :
    (∀ s ∈ (st.runTicks ps).2, s.confidence = 1) ∧
      List.Chain' (fun a b => a.signal ≠ b.signal) (st.runTicks ps).2 :=
  ⟨(SMAState.runTicks_alternation ps st).1,
   (SMAState.runTicks_alternation ps st).2.1⟩

end Titan
